import Mathlib

/-!
# Verification of the `particles-animation` sentiment dashboard (`src/dashboard.py`)

Shallow embedding of the dashboard's data pipeline and of its two chart
callbacks, together with proofs of the documented properties.

A pandas `DataFrame` is modelled as a `Table`: a list of column labels plus a
list of rows, each row an association list from column label to `Cell`.
Calendar dates are encoded as natural numbers `yyyy*10000 + mm*100 + dd`,
which orders exactly like the calendar for the four-digit years relevant here.
Operations that can raise a Python exception (`KeyError` on a missing column,
`ValueError` from `pd.to_datetime` applied to a duplicated column) return
`Except String`.
-/

/-- Decidable equality of raised-or-returned outcomes, so concrete runs of the
embedded operations can be checked by evaluation. -/
instance instDecEqExcept {ε α : Type} [DecidableEq ε] [DecidableEq α] :
    DecidableEq (Except ε α)
  | Except.ok x, Except.ok y =>
      if h : x = y then isTrue (congrArg Except.ok h)
      else isFalse fun hc => h (Except.ok.inj hc)
  | Except.error x, Except.error y =>
      if h : x = y then isTrue (congrArg Except.error h)
      else isFalse fun hc => h (Except.error.inj hc)
  | Except.ok _, Except.error _ => isFalse fun hc => Except.noConfusion hc
  | Except.error _, Except.ok _ => isFalse fun hc => Except.noConfusion hc

/-- A cell of the data frame: a string, an integer, a parsed calendar date
(encoded `yyyymmdd`), or a missing value (`NaN`/`NaT`). -/
inductive Cell where
  | str (s : String)
  | int (n : Int)
  | date (d : Nat)
  | na
deriving DecidableEq, Repr

/-- `True` exactly for the missing value (pandas `isna`). -/
def Cell.isna : Cell → Bool
  | Cell.na => true
  | _ => false

/-- A data-frame row: an association list from column label to cell. -/
abbrev Row := List (String × Cell)

/-- First binding of a column label in a row (pandas scalar access). -/
def Row.get : Row → String → Option Cell
  | [], _ => none
  | (k', v) :: rest, k => if k' = k then some v else Row.get rest k

/-- Column assignment on one row: replace the first binding of the label, or
append a new binding when none exists (pandas `df[col] = value` restricted to
this row; rows with a duplicated label only arise together with duplicated
column labels, which the pipeline rejects before any assignment). -/
def Row.set : Row → String → Cell → Row
  | [], k, v => [(k, v)]
  | (k', v') :: rest, k, v =>
      if k' = k then (k, v) :: rest else (k', v') :: Row.set rest k v

/-- A data frame: its column labels and its rows. -/
structure Table where
  cols : List String
  rows : List Row
deriving DecidableEq, Repr

/-- `pd.DataFrame()`: the empty frame. -/
def Table.empty : Table := ⟨[], []⟩

/-- pandas `df.empty`: true when either axis has length zero. -/
def Table.isEmpty (t : Table) : Bool := t.rows.isEmpty || t.cols.isEmpty

/-! ## The module-level load (dashboard.py lines 13-51) -/

/-- Lower bound of the retained date range (`pd.Timestamp("2017-01-01")`,
line 30). -/
def startDate : Nat := 20170101

/-- Upper bound of the retained date range (`pd.Timestamp("2025-12-31")`,
line 31). -/
def endDate : Nat := 20251231

/-- The COVID cutoff (`pd.Timestamp("2019-12-31")`, line 42). -/
def cutoffDate : Nat := 20191231

/-- A decimal digit, by code point. -/
def isDigitChar (c : Char) : Bool := 48 ≤ c.toNat && c.toNat ≤ 57

/-- The value of a non-empty all-digit character group, `none` otherwise. -/
def digitsToNat? (cs : List Char) : Option Nat :=
  if !cs.isEmpty && cs.all isDigitChar then
    some (cs.foldl (fun a c => a * 10 + (c.toNat - 48)) 0)
  else none

/-- Split a character list on `'-'` separators. -/
def splitOnDash : List Char → List (List Char)
  | [] => [[]]
  | c :: rest =>
      match splitOnDash rest with
      | [] => [[]]
      | g :: gs => if c = '-' then [] :: g :: gs else (c :: g) :: gs

/-- Parse an ISO `YYYY-MM-DD` string into the `yyyymmdd` encoding.
`pd.to_datetime` accepts more formats; this embedding covers the ISO dates the
dataset uses, and every string outside this shape is treated as unparseable. -/
def parseISO (s : String) : Option Nat :=
  match splitOnDash s.toList with
  | [y, m, d] =>
      match digitsToNat? y, digitsToNat? m, digitsToNat? d with
      | some yn, some mn, some dn =>
          if y.length = 4 && 1 ≤ mn && mn ≤ 12 && 1 ≤ dn && dn ≤ 31 then
            some (yn * 10000 + mn * 100 + dn)
          else none
      | _, _, _ => none
  | _ => none

/-- Elementwise `pd.to_datetime(·, errors="coerce")`: strings parse or coerce
to `NaT`; a cell that is already a date stays; anything else coerces to `NaT`
(an integer cell would parse as an epoch offset landing in 1970, which the
2017-2025 range filter removes just like `NaT`, so the retained rows agree). -/
def parseCellDate : Cell → Cell
  | Cell.str s =>
      match parseISO s with
      | some d => Cell.date d
      | none => Cell.na
  | Cell.date d => Cell.date d
  | _ => Cell.na

/-- Lines 20-21: `if "date" in df.columns: df.rename(columns={"date": "month"})`.
The rename fires whenever a `date` column exists, regardless of whether a
`month` column is already present (pandas then ends up with duplicate `month`
labels). -/
def renameDateToMonth (t : Table) : Table :=
  if "date" ∈ t.cols then
    { cols := t.cols.map fun c => if c = "date" then "month" else c,
      rows := t.rows.map fun r =>
        r.map fun p => if p.1 = "date" then ("month", p.2) else p }
  else t

/-- Line 24: `df["month"] = pd.to_datetime(df["month"], errors="coerce")`.
With no `month` column the access raises `KeyError`; with duplicated `month`
labels `df["month"]` is a sub-DataFrame and `pd.to_datetime` raises
`ValueError`; otherwise every cell of the column is parsed with coercion. -/
def toDatetimeMonth (t : Table) : Except String Table :=
  if t.cols.count "month" = 0 then Except.error "KeyError: month"
  else if t.cols.count "month" = 1 then
    Except.ok { t with
      rows := t.rows.map fun r =>
        r.set "month" (parseCellDate ((r.get "month").getD Cell.na)) }
  else Except.error "ValueError: to_datetime applied to duplicated month columns"

/-- Line 27: `df = df.dropna(subset=["month"])` — drop rows whose `month`
cell is missing. -/
def dropnaMonth (t : Table) : Table :=
  { t with rows := t.rows.filter fun r => !((r.get "month").getD Cell.na).isna }

/-- Membership of a date cell in `[startDate, endDate]`; comparison with a
non-date (`NaT`) is `False` in pandas. -/
def inRange (c : Cell) : Bool :=
  match c with
  | Cell.date d => decide (startDate ≤ d) && decide (d ≤ endDate)
  | _ => false

/-- Line 32: `df = df[(df["month"] >= start_date) & (df["month"] <= end_date)]`. -/
def filterRange (t : Table) : Table :=
  { t with rows := t.rows.filter fun r => inRange ((r.get "month").getD Cell.na) }

/-- Python `str(·)` of a cell, as `astype(str)` applies it elementwise. -/
def cellStr : Cell → String
  | Cell.str s => s
  | Cell.int n => toString n
  | Cell.date d => toString d
  | Cell.na => "nan"

/-- Line 35: `df["Sentiment Category"] = df["Sentiment Category"].astype(str)`;
a missing column raises `KeyError`. -/
def astypeSentiment (t : Table) : Except String Table :=
  if "Sentiment Category" ∈ t.cols then
    Except.ok { t with
      rows := t.rows.map fun r =>
        r.set "Sentiment Category"
          (Cell.str (cellStr ((r.get "Sentiment Category").getD Cell.na))) }
  else Except.error "KeyError: Sentiment Category"

/-- Lines 38-39: `if "count" not in df.columns: df["count"] = 1`. -/
def ensureCount (t : Table) : Table :=
  if "count" ∈ t.cols then t
  else { cols := t.cols ++ ["count"],
         rows := t.rows.map fun r => r.set "count" (Cell.int 1) }

/-- The period label of a date (`"Pre-COVID" if x <= cutoff_date else
"Post-COVID"`, line 45). -/
def periodOf (d : Nat) : String :=
  if d ≤ cutoffDate then "Pre-COVID" else "Post-COVID"

/-- The lambda of line 45 applied to one `month` cell; `NaT <= cutoff` is
`False` in pandas, so a non-date maps to `"Post-COVID"` (unreachable after the
`dropna` of line 27). -/
def periodCell (c : Cell) : String :=
  match c with
  | Cell.date d => periodOf d
  | _ => "Post-COVID"

/-- Line 45: `df["Period"] = df["month"].apply(...)`. -/
def addPeriod (t : Table) : Table :=
  { cols := if "Period" ∈ t.cols then t.cols else t.cols ++ ["Period"],
    rows := t.rows.map fun r =>
      r.set "Period" (Cell.str (periodCell ((r.get "month").getD Cell.na))) }

/-- The body of the `try` block, lines 17-45, after `pd.read_csv` succeeded:
each step either transforms the frame or raises (propagates an error). -/
def normalizePipeline (t : Table) : Except String Table := do
  let t1 := renameDateToMonth t
  let t2 ← toDatetimeMonth t1
  let t3 := dropnaMonth t2
  let t4 := filterRange t3
  let t5 ← astypeSentiment t4
  let t6 := ensureCount t5
  Except.ok (addPeriod t6)

/-- Lines 16-51: the whole `try`/`except`. The argument is the outcome of
`pd.read_csv(FILE_PATH)` (an error models a bad path or an unparseable file).
Any exception is caught; the fallback is `pd.DataFrame()` and the reason is
printed (returned here as the second component). -/
def loadDataset (raw : Except String Table) : Table × Option String :=
  match raw >>= normalizePipeline with
  | Except.ok t => (t, none)
  | Except.error e => (Table.empty, some e)

/-- The dataset the module holds when `pd.read_csv` returned `raw`. -/
def loadTable (raw : Table) : Table := (loadDataset (Except.ok raw)).1

/-- The binding in scope for the name `BASE_DIR` at line 13 of dashboard.py:
no statement of the module (nor any import) defines it, so the lookup finds
nothing. -/
def baseDir : Option String := none

/-- Lines 13-51 of the module prelude: line 13 evaluates
`os.path.join(BASE_DIR, "merged_sentiment_data_updated.csv")` before the
`try` block opens, so an unbound `BASE_DIR` raises `NameError` and aborts the
process; only if that name resolves does the guarded load of lines 16-51 run. -/
def moduleInit (raw : Except String Table) : Except String (Table × Option String) :=
  match baseDir with
  | none => Except.error "NameError: name BASE_DIR is not defined"
  | some _ => Except.ok (loadDataset raw)

/-- Lines 70-71 of `app.layout`: the platform dropdown options are
`df["source"].unique()` when `not df.empty`, else `[]`; on a non-empty frame
without a `source` column the access raises `KeyError`. (`unique()` keeps
first-seen order; this embedding returns the distinct values without modelling
that order.) -/
def platformOptions (df : Table) : Except String (List Cell) :=
  if df.isEmpty then Except.ok []
  else if "source" ∈ df.cols then
    Except.ok ((df.rows.map fun r => (r.get "source").getD Cell.na).dedup)
  else Except.error "KeyError: source"

/-! ## The two callbacks (dashboard.py lines 113-176) -/

/-- Elementwise `==` of a cell against a Python string, as the comparisons
`df["source"] == platform` and `df["Period"] == period` compute it: only a
string cell can compare equal. -/
def cellEqStr (c : Cell) (s : String) : Bool :=
  match c with
  | Cell.str s' => s' == s
  | _ => false

/-- Line 120: `filtered_df = df[(df["source"] == platform) & (df["Period"] == period)]`
inside `update_radar_chart`. -/
def radarFiltered (df : Table) (p per : String) : List Row :=
  df.rows.filter fun r =>
    cellEqStr ((r.get "source").getD Cell.na) p &&
      cellEqStr ((r.get "Period").getD Cell.na) per

/-- Line 156: the same filtering expression inside `update_trend_chart`. -/
def trendFiltered (df : Table) (p per : String) : List Row :=
  df.rows.filter fun r =>
    cellEqStr ((r.get "source").getD Cell.na) p &&
      cellEqStr ((r.get "Period").getD Cell.na) per

/-- Filtering as §4.2 of the spec words it: the rows of the dataset whose
`source` equals the selected platform and whose `Period` equals the selected
period. -/
def selectFilterSpec (df : Table) (p per : String) : List Row :=
  df.rows.filter fun r =>
    decide (r.get "source" = some (Cell.str p) ∧ r.get "Period" = some (Cell.str per))

/-- Insert a keyed count into a list kept in descending count order. -/
def insertByCount (x : Cell × Nat) : List (Cell × Nat) → List (Cell × Nat)
  | [] => [x]
  | y :: ys => if y.2 < x.2 then x :: y :: ys else y :: insertByCount x ys

/-- Stable insertion sort by descending count. -/
def sortByCountDesc : List (Cell × Nat) → List (Cell × Nat)
  | [] => []
  | x :: xs => insertByCount x (sortByCountDesc xs)

/-- `pd.Series.value_counts()` (line 130): the frequency of each distinct
non-missing value, sorted by descending count. (Among equal counts pandas
keeps first-seen order; the tie order is not modelled.) -/
def valueCounts (l : List Cell) : List (Cell × Nat) :=
  let l' := l.filter fun c => !c.isna
  sortByCountDesc (l'.dedup.map fun k => (k, l'.count k))

/-- The `Sentiment Category` cell of each row of a slice (line 130's column
access on `filtered_df`). -/
def sliceCategories (rows : List Row) : List Cell :=
  rows.map fun r => (r.get "Sentiment Category").getD Cell.na

/-- Line 130: `sentiment_counts = filtered_df["Sentiment Category"].value_counts()`. -/
def radarCounts (rows : List Row) : List (Cell × Nat) :=
  valueCounts (sliceCategories rows)

/-- The `groupby(["month", "Sentiment Category"])` key of a row (line 165). -/
def trendKey (r : Row) : Cell × Cell :=
  ((r.get "month").getD Cell.na, (r.get "Sentiment Category").getD Cell.na)

/-- The `count` cell of a row read as an integer, as the `["count"].sum()` of
line 165 consumes it; the normalized dataset stores an integer there (the raw
column, or the default 1 filled at line 39). -/
def rowCountVal (r : Row) : Int :=
  match (r.get "count").getD Cell.na with
  | Cell.int n => n
  | _ => 0

/-- Line 165: `filtered_df.groupby(["month", "Sentiment Category"])["count"]
.sum().reset_index()` — one row per distinct (month, category) key occurring
in the slice (keys containing a missing value are dropped, pandas `groupby`
default), carrying the sum of the `count` values of its rows. (pandas sorts
the keys; the key order is not modelled.) -/
def trendRows (rows : List Row) : List ((Cell × Cell) × Int) :=
  (((rows.map trendKey).filter fun k => !k.1.isna && !k.2.isna).dedup).map
    fun k => (k, ((rows.filter fun r => trendKey r = k).map rowCountVal).sum)

/-- A `px.line_polar` figure: radial values, angular labels, title. -/
structure PolarFig where
  r : List Nat
  theta : List String
  title : String
deriving DecidableEq, Repr

/-- A `px.line` figure: its points as (x, y, colour-series label), and title. -/
structure LineFig where
  pts : List (Cell × Int × String)
  title : String
deriving DecidableEq, Repr

/-- Line 117's return value: the heading `"Sentiment Distribution"` and the
bare `px.line_polar(title="No Data Available")` placeholder. -/
def radarNoData : String × PolarFig :=
  ("Sentiment Distribution", ⟨[], [], "No Data Available"⟩)

/-- Lines 113-140: `update_radar_chart(platform, period)` over the module
dataset `df`. A dropdown with no selection passes `None`. -/
def update_radar_chart (df : Table) (platform period : Option String) :
    Except String (String × PolarFig) :=
  match platform, period with
  | some p, some per =>
      if df.isEmpty then Except.ok radarNoData
      else if "source" ∈ df.cols then
        if "Period" ∈ df.cols then
          let fd := radarFiltered df p per
          if fd.isEmpty then
            Except.ok ("Sentiment Distribution on " ++ p ++ " (" ++ per ++ ")",
              ⟨[1], ["No Data"], "No Sentiment Data for " ++ p ++ " (" ++ per ++ ")"⟩)
          else if "Sentiment Category" ∈ df.cols then
            let counts := radarCounts fd
            Except.ok ("Sentiment Distribution on " ++ p ++ " (" ++ per ++ ")",
              ⟨counts.map Prod.snd, counts.map fun kv => cellStr kv.1,
               "Sentiment Distribution on " ++ p ++ " (" ++ per ++ ")"⟩)
          else Except.error "KeyError: Sentiment Category"
        else Except.error "KeyError: Period"
      else Except.error "KeyError: source"
  | _, _ => Except.ok radarNoData

/-- Line 153's return value: the heading `"Sentiment Trend Over Time"` and the
bare `px.line(title="No Data Available")` placeholder. -/
def trendNoData : String × LineFig :=
  ("Sentiment Trend Over Time", ⟨[], "No Data Available"⟩)

/-- Lines 149-176: `update_trend_chart(platform, period)` over the module
dataset `df`. -/
def update_trend_chart (df : Table) (platform period : Option String) :
    Except String (String × LineFig) :=
  match platform, period with
  | some p, some per =>
      if df.isEmpty then Except.ok trendNoData
      else if "source" ∈ df.cols then
        if "Period" ∈ df.cols then
          let fd := trendFiltered df p per
          if fd.isEmpty then
            Except.ok ("Sentiment Trend on " ++ p ++ " (" ++ per ++ ")",
              ⟨[], "No Sentiment Data for " ++ p ++ " (" ++ per ++ ")"⟩)
          else if "month" ∈ df.cols then
            if "Sentiment Category" ∈ df.cols then
              if "count" ∈ df.cols then
                Except.ok ("Sentiment Trend on " ++ p ++ " (" ++ per ++ ")",
                  ⟨(trendRows fd).map fun kv => (kv.1.1, kv.2, cellStr kv.1.2),
                   "Sentiment Trend on " ++ p ++ " (" ++ per ++ ")"⟩)
              else Except.error "KeyError: count"
            else Except.error "KeyError: Sentiment Category"
          else Except.error "KeyError: month"
        else Except.error "KeyError: Period"
      else Except.error "KeyError: source"
  | _, _ => Except.ok trendNoData

/-! ## Concrete frames used to exercise the embedding

`exampleRaw` is the worked example of §8 of the spec; `noSourceRaw` lacks the
`source` column; `dupDateRaw` carries both a `date` and a `month` column. -/

/-- The spec's §8 example input: three pre-aggregated rows for platform `X`. -/
def exampleRaw : Table :=
  { cols := ["source", "month", "Sentiment Category", "count"],
    rows := [
      [("source", Cell.str "X"), ("month", Cell.str "2019-05-01"),
       ("Sentiment Category", Cell.str "positive"), ("count", Cell.int 1)],
      [("source", Cell.str "X"), ("month", Cell.str "2019-05-01"),
       ("Sentiment Category", Cell.str "positive"), ("count", Cell.int 2)],
      [("source", Cell.str "X"), ("month", Cell.str "2020-01-01"),
       ("Sentiment Category", Cell.str "negative"), ("count", Cell.int 1)]] }

/-- The first row of `loadTable exampleRaw`, as normalization produces it. -/
def exampleLoadedRow : Row :=
  [("source", Cell.str "X"), ("month", Cell.date 20190501),
   ("Sentiment Category", Cell.str "positive"), ("count", Cell.int 1),
   ("Period", Cell.str "Pre-COVID")]

/-- A raw input with a valid dated row but no `source` column. -/
def noSourceRaw : Table :=
  { cols := ["month", "Sentiment Category"],
    rows := [[("month", Cell.str "2019-05-01"),
              ("Sentiment Category", Cell.str "positive")]] }

/-- A raw input that has both a `date` and a `month` column, each holding a
valid in-range date, plus the two required categorical columns. -/
def dupDateRaw : Table :=
  { cols := ["date", "month", "source", "Sentiment Category"],
    rows := [[("date", Cell.str "2019-05-01"), ("month", Cell.str "2019-06-01"),
              ("source", Cell.str "X"), ("Sentiment Category", Cell.str "positive")]] }

/-! ## Row access lemmas -/

theorem Row.get_set_self (r : Row) (k : String) (v : Cell) :
    (Row.set r k v).get k = some v := by
  induction r with
  | nil => simp [Row.set, Row.get]
  | cons p rest ih =>
      by_cases h : p.1 = k
      · simp [Row.set, Row.get, h]
      · simp [Row.set, Row.get, h, ih]

theorem Row.get_set_of_ne (r : Row) {k k' : String} (h : k ≠ k') (v : Cell) :
    (Row.set r k v).get k' = r.get k' := by
  induction r with
  | nil => simp [Row.set, Row.get, h]
  | cons p rest ih =>
      by_cases hp : p.1 = k
      · simp [Row.set, Row.get, hp, h, ih]
      · by_cases hp' : p.1 = k'
        · simp [Row.set, Row.get, hp, hp', h.symm]
        · simp [Row.set, Row.get, hp, hp', ih]

theorem getD_na_eq_date {o : Option Cell} {d : Nat}
    (h : o.getD Cell.na = Cell.date d) : o = some (Cell.date d) := by
  cases o with
  | none => simp [Option.getD] at h
  | some c => simpa [Option.getD] using congrArg some h

/-! ## Column bookkeeping through the pipeline -/

theorem cols_toDatetimeMonth {t t' : Table} (h : toDatetimeMonth t = Except.ok t') :
    t'.cols = t.cols := by
  unfold toDatetimeMonth at h
  split at h
  · exact absurd h (by simp)
  · split at h
    · cases h; rfl
    · exact absurd h (by simp)

theorem cols_dropnaMonth (t : Table) : (dropnaMonth t).cols = t.cols := rfl

theorem cols_filterRange (t : Table) : (filterRange t).cols = t.cols := rfl

theorem mem_cols_rename {t : Table} {c : String} (hc : c ≠ "month") (hd : c ≠ "date") :
    c ∈ (renameDateToMonth t).cols ↔ c ∈ t.cols := by
  unfold renameDateToMonth
  split
  · simp only [List.mem_map]
    constructor
    · rintro ⟨a, ha, h⟩
      by_cases had : a = "date"
      · rw [had] at h; simp at h; exact absurd h.symm hc
      · simp [had] at h; exact h ▸ ha
    · intro h
      exact ⟨c, h, by simp [hd]⟩
  · exact Iff.rfl

theorem rename_eq_self {t : Table} (h : "date" ∉ t.cols) :
    renameDateToMonth t = t := by
  unfold renameDateToMonth
  simp [h]

/-! ## Shape of the loaded dataset -/

theorem loadTable_eq (raw : Table) :
    loadTable raw = match normalizePipeline raw with
      | Except.ok t => t
      | Except.error _ => Table.empty := by
  show (loadDataset (Except.ok raw)).1 = _
  unfold loadDataset
  have hb : (Except.ok raw >>= normalizePipeline) = normalizePipeline raw := rfl
  rw [hb]
  cases hnp : normalizePipeline raw <;> simp

theorem normalizePipeline_ok {raw t : Table} (h : normalizePipeline raw = Except.ok t) :
    ∃ t2 t5, toDatetimeMonth (renameDateToMonth raw) = Except.ok t2 ∧
      astypeSentiment (filterRange (dropnaMonth t2)) = Except.ok t5 ∧
      t = addPeriod (ensureCount t5) := by
  unfold normalizePipeline at h
  cases h2 : toDatetimeMonth (renameDateToMonth raw) with
  | error e =>
      simp only [h2, Bind.bind, Except.bind] at h
      exact absurd h (by simp)
  | ok t2 =>
      simp only [h2, Bind.bind, Except.bind] at h
      cases h5 : astypeSentiment (filterRange (dropnaMonth t2)) with
      | error e =>
          simp only [h5] at h
          exact absurd h (by simp)
      | ok t5 =>
          simp only [h5, Except.ok.injEq] at h
          exact ⟨t2, t5, rfl, h5, h.symm⟩

theorem normalizePipeline_error {raw : Table} {e : String}
    (h : normalizePipeline raw = Except.error e) : loadTable raw = Table.empty := by
  rw [loadTable_eq, h]

theorem mem_addPeriod_rows {t : Table} {r : Row} (hr : r ∈ (addPeriod t).rows) :
    ∃ r0 ∈ t.rows,
      r = r0.set "Period" (Cell.str (periodCell ((r0.get "month").getD Cell.na))) := by
  unfold addPeriod at hr
  obtain ⟨r0, h0, h⟩ := List.mem_map.mp hr
  exact ⟨r0, h0, h.symm⟩

theorem mem_ensureCount_rows {t : Table} {r : Row} (hr : r ∈ (ensureCount t).rows) :
    ∃ r0 ∈ t.rows, r = r0 ∨ r = r0.set "count" (Cell.int 1) := by
  unfold ensureCount at hr
  split at hr
  · exact ⟨r, hr, Or.inl rfl⟩
  · obtain ⟨r0, h0, h⟩ := List.mem_map.mp hr
    exact ⟨r0, h0, Or.inr h.symm⟩

theorem astypeSentiment_ok_rows {t t' : Table} (h : astypeSentiment t = Except.ok t') :
    t'.rows = t.rows.map fun r =>
      r.set "Sentiment Category"
        (Cell.str (cellStr ((r.get "Sentiment Category").getD Cell.na))) := by
  unfold astypeSentiment at h
  split at h
  · cases h; rfl
  · exact absurd h (by simp)

theorem mem_filterRange_rows {t : Table} {r : Row} (hr : r ∈ (filterRange t).rows) :
    ∃ d, r.get "month" = some (Cell.date d) ∧ startDate ≤ d ∧ d ≤ endDate := by
  unfold filterRange at hr
  obtain ⟨-, h2⟩ := List.mem_filter.mp hr
  cases hc : (r.get "month").getD Cell.na with
  | str s => rw [hc] at h2; simp [inRange] at h2
  | int n => rw [hc] at h2; simp [inRange] at h2
  | na => rw [hc] at h2; simp [inRange] at h2
  | date d =>
      rw [hc] at h2
      simp only [inRange, Bool.and_eq_true, decide_eq_true_eq] at h2
      exact ⟨d, getD_na_eq_date hc, h2.1, h2.2⟩

/-- The invariant every row of the loaded dataset satisfies: its `month` is a
parsed date inside `[startDate, endDate]`, its `Period` is `periodOf` of that
date, and its `Sentiment Category` is a string. -/
theorem mem_loadTable_rows {raw : Table} {r : Row}
    (hr : r ∈ (loadTable raw).rows) :
    ∃ d s, r.get "month" = some (Cell.date d) ∧ startDate ≤ d ∧ d ≤ endDate ∧
      r.get "Period" = some (Cell.str (periodOf d)) ∧
      r.get "Sentiment Category" = some (Cell.str s) := by
  rw [loadTable_eq] at hr
  cases hp : normalizePipeline raw with
  | error e => rw [hp] at hr; simp [Table.empty] at hr
  | ok t =>
      rw [hp] at hr
      obtain ⟨t2, t5, h2, h5, ht⟩ := normalizePipeline_ok hp
      rw [ht] at hr
      obtain ⟨r6, hr6, hre⟩ := mem_addPeriod_rows hr
      obtain ⟨r5, hr5, hcase⟩ := mem_ensureCount_rows hr6
      rw [astypeSentiment_ok_rows h5] at hr5
      obtain ⟨r4, hr4, hr54⟩ := List.mem_map.mp hr5
      obtain ⟨d, hmonth4, hd1, hd2⟩ := mem_filterRange_rows hr4
      have hm5 : r5.get "month" = some (Cell.date d) := by
        rw [← hr54, Row.get_set_of_ne _ (by decide), hmonth4]
      have hsc5 : r5.get "Sentiment Category"
          = some (Cell.str (cellStr ((r4.get "Sentiment Category").getD Cell.na))) := by
        rw [← hr54, Row.get_set_self]
      have hm6 : r6.get "month" = some (Cell.date d) := by
        rcases hcase with rfl | rfl
        · exact hm5
        · rw [Row.get_set_of_ne _ (by decide), hm5]
      have hsc6 : r6.get "Sentiment Category"
          = some (Cell.str (cellStr ((r4.get "Sentiment Category").getD Cell.na))) := by
        rcases hcase with rfl | rfl
        · exact hsc5
        · rw [Row.get_set_of_ne _ (by decide), hsc5]
      refine ⟨d, cellStr ((r4.get "Sentiment Category").getD Cell.na), ?_, hd1, hd2, ?_, ?_⟩
      · rw [hre, Row.get_set_of_ne _ (by decide), hm6]
      · rw [hre, Row.get_set_self, hm6]
        simp [Option.getD, periodCell]
      · rw [hre, Row.get_set_of_ne _ (by decide), hsc6]

/-! ## Aggregation lemmas -/

theorem insertByCount_perm (x : Cell × Nat) (l : List (Cell × Nat)) :
    List.Perm (insertByCount x l) (x :: l) := by
  induction l with
  | nil => exact List.Perm.refl _
  | cons y ys ih =>
      unfold insertByCount
      split
      · exact List.Perm.refl _
      · exact (ih.cons y).trans (List.Perm.swap x y ys)

theorem sortByCountDesc_perm (l : List (Cell × Nat)) :
    List.Perm (sortByCountDesc l) l := by
  induction l with
  | nil => exact List.Perm.refl _
  | cons x xs ih => exact (insertByCount_perm x (sortByCountDesc xs)).trans (ih.cons x)

theorem valueCounts_perm (l : List Cell) :
    List.Perm (valueCounts l) ((l.filter fun c => !c.isna).dedup.map
      fun k => (k, (l.filter fun c => !c.isna).count k)) :=
  sortByCountDesc_perm _

theorem mem_valueCounts {l : List Cell} {k : Cell} {n : Nat} :
    (k, n) ∈ valueCounts l ↔
      k ∈ l.filter (fun c => !c.isna) ∧ n = (l.filter fun c => !c.isna).count k := by
  rw [(valueCounts_perm l).mem_iff]
  simp only [List.mem_map, List.mem_dedup, Prod.mk.injEq]
  constructor
  · rintro ⟨a, ha, rfl, rfl⟩
    exact ⟨ha, rfl⟩
  · rintro ⟨hk, rfl⟩
    exact ⟨k, hk, rfl, rfl⟩

theorem valueCounts_sum (l : List Cell) :
    ((valueCounts l).map Prod.snd).sum = (l.filter fun c => !c.isna).length := by
  rw [((valueCounts_perm l).map Prod.snd).sum_eq, List.map_map]
  have h : (Prod.snd ∘ fun k => (k, (l.filter fun c => !c.isna).count k))
      = fun k => (l.filter fun c => !c.isna).count k := rfl
  rw [h]
  exact List.sum_map_count_dedup_eq_length _

theorem valueCounts_keys_nodup (l : List Cell) :
    ((valueCounts l).map Prod.fst).Nodup := by
  rw [((valueCounts_perm l).map Prod.fst).nodup_iff, List.map_map]
  have h : (Prod.fst ∘ fun k => (k, (l.filter fun c => !c.isna).count k)) = id := rfl
  rw [h, List.map_id]
  exact List.nodup_dedup _

theorem cellEqStr_getD (o : Option Cell) (s : String) :
    cellEqStr (o.getD Cell.na) s = decide (o = some (Cell.str s)) := by
  cases o with
  | none => simp [cellEqStr]
  | some c =>
      cases c with
      | str s' => by_cases h : s' = s <;> simp [cellEqStr, h]
      | int n => simp [cellEqStr]
      | date d => simp [cellEqStr]
      | na => simp [cellEqStr]

theorem mem_radarFiltered {df : Table} {p per : String} {r : Row} :
    r ∈ radarFiltered df p per ↔
      r ∈ df.rows ∧ r.get "source" = some (Cell.str p) ∧
        r.get "Period" = some (Cell.str per) := by
  unfold radarFiltered
  rw [List.mem_filter, cellEqStr_getD, cellEqStr_getD]
  simp

theorem radarFiltered_eq_trendFiltered (df : Table) (p per : String) :
    radarFiltered df p per = trendFiltered df p per := rfl

theorem radarFiltered_eq_spec (df : Table) (p per : String) :
    radarFiltered df p per = selectFilterSpec df p per := by
  unfold radarFiltered selectFilterSpec
  apply List.filter_congr
  intro r hr
  rw [cellEqStr_getD, cellEqStr_getD, Bool.decide_and]

theorem two_le_count_month_rename {l : List String}
    (hm : "month" ∈ l) (hd : "date" ∈ l) :
    2 ≤ (l.map fun c => if c = "date" then "month" else c).count "month" := by
  induction l with
  | nil => cases hm
  | cons c rest ih =>
      by_cases hc1 : c = "date"
      · subst hc1
        have hm' : "month" ∈ rest := by
          cases List.mem_cons.mp hm with
          | inl h => exact absurd h (by decide)
          | inr h => exact h
        have h1 : "month" ∈ rest.map fun x => if x = "date" then "month" else x := by
          refine List.mem_map.mpr ⟨"month", hm', ?_⟩
          simp
        have h2 := List.count_pos_iff.mpr h1
        simp only [List.map_cons, if_pos rfl, List.count_cons, beq_self_eq_true, if_true]
        omega
      · by_cases hc2 : c = "month"
        · subst hc2
          have hd' : "date" ∈ rest := by
            cases List.mem_cons.mp hd with
            | inl h => exact absurd h (by decide)
            | inr h => exact h
          have h1 : "month" ∈ rest.map fun x => if x = "date" then "month" else x := by
            refine List.mem_map.mpr ⟨"date", hd', ?_⟩
            simp
          have h2 := List.count_pos_iff.mpr h1
          simp only [List.map_cons, if_neg hc1, List.count_cons, beq_self_eq_true, if_true]
          omega
        · have hm' : "month" ∈ rest := by
            cases List.mem_cons.mp hm with
            | inl h => exact absurd h.symm hc2
            | inr h => exact h
          have hd' : "date" ∈ rest := by
            cases List.mem_cons.mp hd with
            | inl h => exact absurd h.symm hc1
            | inr h => exact h
          have h2 := ih hm' hd'
          have hne : ¬("month" = if c = "date" then "month" else c) := by
            rw [if_neg hc1]
            exact fun h => hc2 h.symm
          simp only [List.map_cons, List.count_cons, beq_iff_eq, if_neg hne]
          omega

theorem loadTable_empty_of_dup_month {raw : Table}
    (hm : "month" ∈ raw.cols) (hd : "date" ∈ raw.cols) :
    loadTable raw = Table.empty := by
  have hcols : (renameDateToMonth raw).cols
      = raw.cols.map fun c => if c = "date" then "month" else c := by
    unfold renameDateToMonth
    rw [if_pos hd]
  have h2 : 2 ≤ (renameDateToMonth raw).cols.count "month" := by
    rw [hcols]
    exact two_le_count_month_rename hm hd
  have herr : toDatetimeMonth (renameDateToMonth raw)
      = Except.error "ValueError: to_datetime applied to duplicated month columns" := by
    unfold toDatetimeMonth
    rw [if_neg (by omega), if_neg (by omega)]
  have hnp : normalizePipeline raw
      = Except.error "ValueError: to_datetime applied to duplicated month columns" := by
    unfold normalizePipeline
    simp only [herr, Bind.bind, Except.bind]
  exact normalizePipeline_error hnp

theorem loadTable_empty_of_missing {raw : Table}
    (h : "Sentiment Category" ∉ raw.cols ∨ ("month" ∉ raw.cols ∧ "date" ∉ raw.cols)) :
    loadTable raw = Table.empty := by
  rcases h with hsc | ⟨hm, hd⟩
  · cases h2 : toDatetimeMonth (renameDateToMonth raw) with
    | error e =>
        refine normalizePipeline_error (e := e) ?_
        unfold normalizePipeline
        simp only [h2, Bind.bind, Except.bind]
    | ok t2 =>
        have hsc2 : "Sentiment Category" ∉ (filterRange (dropnaMonth t2)).cols := by
          rw [cols_filterRange, cols_dropnaMonth, cols_toDatetimeMonth h2,
            mem_cols_rename (by decide) (by decide)]
          exact hsc
        have h5 : astypeSentiment (filterRange (dropnaMonth t2))
            = Except.error "KeyError: Sentiment Category" := by
          unfold astypeSentiment
          rw [if_neg hsc2]
        refine normalizePipeline_error (e := "KeyError: Sentiment Category") ?_
        unfold normalizePipeline
        simp only [h2, Bind.bind, Except.bind, h5]
  · have h0 : (renameDateToMonth raw).cols.count "month" = 0 := by
      rw [rename_eq_self hd]
      exact List.count_eq_zero.mpr hm
    have h2 : toDatetimeMonth (renameDateToMonth raw)
        = Except.error "KeyError: month" := by
      unfold toDatetimeMonth
      rw [if_pos h0]
    refine normalizePipeline_error (e := "KeyError: month") ?_
    unfold normalizePipeline
    simp only [h2, Bind.bind, Except.bind]

/-! ## Slice-level consequences of the load invariant -/

theorem sliceCategories_str {raw : Table} {p per : String} {c : Cell}
    (hc : c ∈ sliceCategories (radarFiltered (loadTable raw) p per)) :
    ∃ s, c = Cell.str s := by
  obtain ⟨r, hr, hcr⟩ := List.mem_map.mp hc
  have hrr : r ∈ (loadTable raw).rows := (mem_radarFiltered.mp hr).1
  obtain ⟨d, s, -, -, -, -, hsc⟩ := mem_loadTable_rows hrr
  refine ⟨s, ?_⟩
  rw [← hcr, hsc]
  rfl

theorem sliceCategories_filter_eq (raw : Table) (p per : String) :
    (sliceCategories (radarFiltered (loadTable raw) p per)).filter (fun c => !c.isna)
      = sliceCategories (radarFiltered (loadTable raw) p per) := by
  apply List.filter_eq_self.mpr
  intro c hc
  obtain ⟨s, rfl⟩ := sliceCategories_str hc
  rfl

theorem trendKey_not_na {raw : Table} {p per : String} {r : Row}
    (hr : r ∈ trendFiltered (loadTable raw) p per) :
    (!(trendKey r).1.isna && !(trendKey r).2.isna) = true := by
  rw [← radarFiltered_eq_trendFiltered] at hr
  have hrr : r ∈ (loadTable raw).rows := (mem_radarFiltered.mp hr).1
  obtain ⟨d, s, hm, -, -, -, hsc⟩ := mem_loadTable_rows hrr
  unfold trendKey
  rw [hm, hsc]
  rfl

theorem mem_trendRows {rows : List Row} {k : Cell × Cell} {v : Int} :
    (k, v) ∈ trendRows rows ↔
      (k ∈ (rows.map trendKey).filter (fun k => !k.1.isna && !k.2.isna) ∧
       v = ((rows.filter fun r => trendKey r = k).map rowCountVal).sum) := by
  unfold trendRows
  rw [List.mem_map]
  constructor
  · rintro ⟨a, ha, h⟩
    rw [Prod.mk.injEq] at h
    obtain ⟨rfl, rfl⟩ := h
    exact ⟨List.mem_dedup.mp ha, rfl⟩
  · rintro ⟨hk, rfl⟩
    exact ⟨k, List.mem_dedup.mpr hk, rfl⟩

theorem trendRows_keys_nodup (rows : List Row) :
    ((trendRows rows).map Prod.fst).Nodup := by
  unfold trendRows
  rw [List.map_map]
  have h : (Prod.fst ∘ fun k =>
      (k, ((rows.filter fun r => trendKey r = k).map rowCountVal).sum)) = id := rfl
  rw [h, List.map_id]
  exact List.nodup_dedup _

theorem trendKeys_filter_eq (raw : Table) (p per : String) :
    ((trendFiltered (loadTable raw) p per).map trendKey).filter
        (fun k => !k.1.isna && !k.2.isna)
      = (trendFiltered (loadTable raw) p per).map trendKey := by
  apply List.filter_eq_self.mpr
  intro k hk
  obtain ⟨r, hr, hkr⟩ := List.mem_map.mp hk
  rw [← hkr]
  exact trendKey_not_na hr

theorem update_radar_chart_empty (p per : Option String) :
    update_radar_chart Table.empty p per = Except.ok radarNoData := by
  cases p <;> cases per <;> rfl

theorem update_trend_chart_empty (p per : Option String) :
    update_trend_chart Table.empty p per = Except.ok trendNoData := by
  cases p <;> cases per <;> rfl

/-! ## The claims -/

/-- C1: the claim says that building the Dataset at process start never throws
or aborts for any input condition, falling back to an empty Dataset. The code
refutes this before any input is read: line 13 evaluates
`os.path.join(BASE_DIR, ...)` outside the `try` block, and `BASE_DIR` is bound
nowhere in dashboard.py, so module initialization raises `NameError` and
aborts the process for every input, valid CSV included. -/
theorem module_init_always_raises (raw : Except String Table) :
    moduleInit raw = Except.error "NameError: name BASE_DIR is not defined" := rfl

/-- C2 counterexample: an input lacking only the `source` column. The claim
predicts an empty Dataset; instead normalization retains the row (no step of
the `try` block reads `source`), and building the platform dropdown at line 70
then raises `KeyError` instead of degrading to the "no data" state. -/
theorem missing_source_not_fatal :
    (loadTable noSourceRaw).rows ≠ [] ∧
    platformOptions (loadTable noSourceRaw) = Except.error "KeyError: source" := by
  constructor
  · decide
  · decide

/-- C2 (amended): if the raw input lacks the `Sentiment Category` column, or
lacks both a `month` and a `date` column, normalization yields the empty
Dataset and both selection callbacks return the "no data" result for every
argument; a missing `source` column alone is not detected by normalization. -/
theorem missing_required_columns_empty (raw : Table) (p per : Option String)
    (h : "Sentiment Category" ∉ raw.cols ∨ ("month" ∉ raw.cols ∧ "date" ∉ raw.cols)) :
    loadTable raw = Table.empty ∧
    update_radar_chart (loadTable raw) p per = Except.ok radarNoData ∧
    update_trend_chart (loadTable raw) p per = Except.ok trendNoData := by
  have he := loadTable_empty_of_missing h
  rw [he]
  exact ⟨rfl, update_radar_chart_empty p per, update_trend_chart_empty p per⟩

/-- C2 witness: a frame with only a `month` column loads as the empty Dataset
and both callbacks answer "no data". -/
theorem missing_required_columns_empty_witness :
    loadTable (Table.mk ["month"] []) = Table.empty ∧
    update_radar_chart (loadTable (Table.mk ["month"] [])) none none
      = Except.ok radarNoData ∧
    update_trend_chart (loadTable (Table.mk ["month"] [])) none none
      = Except.ok trendNoData :=
  missing_required_columns_empty (Table.mk ["month"] []) none none (Or.inl (by decide))

/-- C3 counterexample: an input carrying both a `date` and a `month` column.
The claim says the rename happens only when `month` is absent and that such an
input keeps its `month` column unchanged; in the code the rename fires anyway
(line 20 only tests for `date`), duplicating the `month` label, after which
`pd.to_datetime` raises and the whole load collapses to the empty Dataset even
though the input held a valid in-range row. -/
theorem rename_fires_despite_month :
    "date" ∈ dupDateRaw.cols ∧ "month" ∈ dupDateRaw.cols ∧
    (renameDateToMonth dupDateRaw).cols
      = ["month", "month", "source", "Sentiment Category"] ∧
    renameDateToMonth dupDateRaw ≠ dupDateRaw ∧
    loadTable dupDateRaw = Table.empty := by
  refine ⟨by decide, by decide, by decide, by decide, by decide⟩

/-- C3 (amended): the aliasing renames `date` → `month` exactly when a `date`
column exists, regardless of `month`: without `date` the frame is untouched;
with `date` every `date` label becomes `month`; and when both columns are
present the duplicated `month` labels make the subsequent `to_datetime` raise,
so the load falls back to the empty Dataset. -/
theorem rename_behaviour (raw : Table) :
    ("date" ∉ raw.cols → renameDateToMonth raw = raw) ∧
    ("date" ∈ raw.cols → (renameDateToMonth raw).cols
      = raw.cols.map fun c => if c = "date" then "month" else c) ∧
    ("date" ∈ raw.cols → "month" ∈ raw.cols → loadTable raw = Table.empty) := by
  refine ⟨fun h => rename_eq_self h, fun h => ?_,
    fun hd hm => loadTable_empty_of_dup_month hm hd⟩
  unfold renameDateToMonth
  rw [if_pos h]

/-- C3 witness: the three branches of `rename_behaviour` at concrete frames. -/
theorem rename_behaviour_witness :
    renameDateToMonth (Table.mk ["month"] []) = Table.mk ["month"] [] ∧
    (renameDateToMonth dupDateRaw).cols
      = dupDateRaw.cols.map (fun c => if c = "date" then "month" else c) ∧
    loadTable dupDateRaw = Table.empty :=
  ⟨(rename_behaviour (Table.mk ["month"] [])).1 (by decide),
   (rename_behaviour dupDateRaw).2.1 (by decide),
   (rename_behaviour dupDateRaw).2.2 (by decide) (by decide)⟩

/-- C4: for every retained record, the `Period` label is the pure function
`periodOf` of its `month` date — `Pre-COVID` exactly when the date is on or
before 2019-12-31, `Post-COVID` otherwise — never set independently. -/
theorem period_iff_cutoff (raw : Table) (r : Row) (d : Nat)
    (hr : r ∈ (loadTable raw).rows)
    (hm : r.get "month" = some (Cell.date d)) :
    r.get "Period" = some (Cell.str (periodOf d)) ∧
    (r.get "Period" = some (Cell.str "Pre-COVID") ↔ d ≤ cutoffDate) := by
  obtain ⟨d', s, hm', -, -, hper, -⟩ := mem_loadTable_rows hr
  have hd : d = d' := by
    rw [hm] at hm'
    exact Cell.date.inj (Option.some.inj hm')
  subst hd
  refine ⟨hper, ?_, ?_⟩
  · intro h
    by_cases hc : d ≤ cutoffDate
    · exact hc
    · rw [hper] at h
      unfold periodOf at h
      rw [if_neg hc] at h
      exact absurd h (by decide)
  · intro hc
    rw [hper]
    unfold periodOf
    rw [if_pos hc]

/-- C4 witness: the first loaded row of the spec's example is labeled
`Pre-COVID`, and its date 2019-05-01 is on the `Pre-COVID` side of the cutoff. -/
theorem period_iff_cutoff_witness :
    Row.get exampleLoadedRow "Period" = some (Cell.str (periodOf 20190501)) ∧
    (Row.get exampleLoadedRow "Period" = some (Cell.str "Pre-COVID")
      ↔ 20190501 ≤ cutoffDate) :=
  period_iff_cutoff exampleRaw exampleLoadedRow 20190501 (by decide) (by decide)

/-- C5: every record retained by normalization carries a parsed `month` date
inside `[2017-01-01, 2025-12-31]`; out-of-range rows are removed at load time,
so no query-time operation observes one. -/
theorem retained_rows_in_range (raw : Table) (r : Row)
    (hr : r ∈ (loadTable raw).rows) :
    ∃ d, r.get "month" = some (Cell.date d) ∧ startDate ≤ d ∧ d ≤ endDate := by
  obtain ⟨d, s, hm, h1, h2, -, -⟩ := mem_loadTable_rows hr
  exact ⟨d, hm, h1, h2⟩

/-- C5 witness: the range invariant instantiated at a concrete loaded row. -/
theorem retained_rows_in_range_witness :
    ∃ d, Row.get exampleLoadedRow "month" = some (Cell.date d) ∧
      startDate ≤ d ∧ d ≤ endDate :=
  retained_rows_in_range exampleRaw exampleLoadedRow (by decide)

/-- C6: on the filtered slice of a (platform, period) selection, the radar
chart's distribution assigns to each distinct sentiment category exactly the
number of slice rows bearing it (each category appearing once), and the
distribution's values sum to the number of rows of the slice. -/
theorem distribution_counts_slice (raw : Table) (p per : String)
    (_hne : radarFiltered (loadTable raw) p per ≠ []) :
    ((radarCounts (radarFiltered (loadTable raw) p per)).map Prod.snd).sum
        = (radarFiltered (loadTable raw) p per).length ∧
    (∀ k n, (k, n) ∈ radarCounts (radarFiltered (loadTable raw) p per) ↔
      (k ∈ sliceCategories (radarFiltered (loadTable raw) p per) ∧
        n = (sliceCategories (radarFiltered (loadTable raw) p per)).count k)) ∧
    ((radarCounts (radarFiltered (loadTable raw) p per)).map Prod.fst).Nodup := by
  have hfe := sliceCategories_filter_eq raw p per
  refine ⟨?_, ?_, valueCounts_keys_nodup _⟩
  · unfold radarCounts
    rw [valueCounts_sum, hfe]
    unfold sliceCategories
    exact List.length_map _ _
  · intro k n
    unfold radarCounts
    rw [mem_valueCounts, hfe]

/-- C6 witness: on the spec's example, selecting (X, Pre-COVID) gives a
distribution summing to the 2 slice rows, and category `positive` is counted
exactly twice. -/
theorem distribution_counts_slice_witness :
    ((radarCounts (radarFiltered (loadTable exampleRaw) "X" "Pre-COVID")).map
        Prod.snd).sum
      = (radarFiltered (loadTable exampleRaw) "X" "Pre-COVID").length ∧
    ((Cell.str "positive", 2) ∈
        radarCounts (radarFiltered (loadTable exampleRaw) "X" "Pre-COVID") ↔
      (Cell.str "positive" ∈
          sliceCategories (radarFiltered (loadTable exampleRaw) "X" "Pre-COVID") ∧
        2 = (sliceCategories
          (radarFiltered (loadTable exampleRaw) "X" "Pre-COVID")).count
            (Cell.str "positive"))) :=
  have h := distribution_counts_slice exampleRaw "X" "Pre-COVID" (by decide)
  ⟨h.1, h.2.1 (Cell.str "positive") 2⟩

/-- C7: on the filtered slice of a (platform, period) selection, the trend
contains exactly one entry per (month, category) pair occurring in the slice
— its value being the exact sum of the `count` values of the matching rows —
and no entry for any absent pair (gaps, not zeros). -/
theorem trend_exact_sums (raw : Table) (p per : String)
    (_hne : trendFiltered (loadTable raw) p per ≠ []) :
    (∀ k v, ((k, v) ∈ trendRows (trendFiltered (loadTable raw) p per)) ↔
      (k ∈ (trendFiltered (loadTable raw) p per).map trendKey ∧
       v = (((trendFiltered (loadTable raw) p per).filter
              fun r => trendKey r = k).map rowCountVal).sum)) ∧
    ((trendRows (trendFiltered (loadTable raw) p per)).map Prod.fst).Nodup := by
  refine ⟨?_, trendRows_keys_nodup _⟩
  intro k v
  rw [mem_trendRows, trendKeys_filter_eq raw p per]

/-- C7 witness: on the spec's example, selecting (X, Pre-COVID) yields the
single trend entry (2019-05-01, positive) with summed count 1 + 2 = 3. -/
theorem trend_exact_sums_witness :
    (((Cell.date 20190501, Cell.str "positive"), (3 : Int)) ∈
        trendRows (trendFiltered (loadTable exampleRaw) "X" "Pre-COVID") ↔
      ((Cell.date 20190501, Cell.str "positive") ∈
          (trendFiltered (loadTable exampleRaw) "X" "Pre-COVID").map trendKey ∧
        (3 : Int) = (((trendFiltered (loadTable exampleRaw) "X" "Pre-COVID").filter
            fun r => trendKey r = (Cell.date 20190501, Cell.str "positive")).map
          rowCountVal).sum)) ∧
    ((trendRows (trendFiltered (loadTable exampleRaw) "X" "Pre-COVID")).map
        Prod.fst).Nodup :=
  have h := trend_exact_sums exampleRaw "X" "Pre-COVID" (by decide)
  ⟨h.1 (Cell.date 20190501, Cell.str "positive") 3, h.2⟩

/-- C8: whenever the Dataset is empty or either dropdown is unset, both
callbacks return the "no data" result instead of raising. -/
theorem empty_or_unset_no_data (df : Table) (platform period : Option String)
    (h : df.isEmpty = true ∨ platform = none ∨ period = none) :
    update_radar_chart df platform period = Except.ok radarNoData ∧
    update_trend_chart df platform period = Except.ok trendNoData := by
  cases platform with
  | none => cases period <;> exact ⟨rfl, rfl⟩
  | some p =>
      cases period with
      | none => exact ⟨rfl, rfl⟩
      | some per =>
          rcases h with h | h | h
          · constructor
            · simp [update_radar_chart, h]
            · simp [update_trend_chart, h]
          · exact absurd h (by simp)
          · exact absurd h (by simp)

/-- C8 witness: the empty Dataset with unset dropdowns gives "no data" in both
callbacks. -/
theorem empty_or_unset_no_data_witness :
    update_radar_chart Table.empty none none = Except.ok radarNoData ∧
    update_trend_chart Table.empty none none = Except.ok trendNoData :=
  empty_or_unset_no_data Table.empty none none (Or.inl rfl)

/-- C9: on a non-empty Dataset (with its `source` and `Period` columns), a set
selection matching zero rows makes both callbacks return the "no matching
rows" result, whose titles name the platform and the period, and which differs
from the "no data" result returned for an empty Dataset or unset dropdowns. -/
theorem no_matching_rows_distinct (df : Table) (p per : String)
    (hde : df.isEmpty = false)
    (hs : "source" ∈ df.cols) (hp : "Period" ∈ df.cols)
    (hf : radarFiltered df p per = []) :
    update_radar_chart df (some p) (some per)
        = Except.ok ("Sentiment Distribution on " ++ p ++ " (" ++ per ++ ")",
            ⟨[1], ["No Data"], "No Sentiment Data for " ++ p ++ " (" ++ per ++ ")"⟩) ∧
    update_trend_chart df (some p) (some per)
        = Except.ok ("Sentiment Trend on " ++ p ++ " (" ++ per ++ ")",
            ⟨[], "No Sentiment Data for " ++ p ++ " (" ++ per ++ ")"⟩) ∧
    update_radar_chart df (some p) (some per) ≠ Except.ok radarNoData ∧
    update_trend_chart df (some p) (some per) ≠ Except.ok trendNoData := by
  have hf' : trendFiltered df p per = [] := by
    rw [← radarFiltered_eq_trendFiltered]
    exact hf
  have h1 : update_radar_chart df (some p) (some per)
      = Except.ok ("Sentiment Distribution on " ++ p ++ " (" ++ per ++ ")",
          ⟨[1], ["No Data"], "No Sentiment Data for " ++ p ++ " (" ++ per ++ ")"⟩) := by
    simp [update_radar_chart, hde, hs, hp, hf]
  have h2 : update_trend_chart df (some p) (some per)
      = Except.ok ("Sentiment Trend on " ++ p ++ " (" ++ per ++ ")",
          ⟨[], "No Sentiment Data for " ++ p ++ " (" ++ per ++ ")"⟩) := by
    simp [update_trend_chart, hde, hs, hp, hf']
  refine ⟨h1, h2, ?_, ?_⟩
  · rw [h1]
    intro hcontra
    have hfig := congrArg Prod.snd (Except.ok.inj hcontra)
    have hr := congrArg PolarFig.r hfig
    simp [radarNoData] at hr
  · rw [h2]
    intro hcontra
    have hfig := congrArg Prod.snd (Except.ok.inj hcontra)
    have htitle := congrArg LineFig.title hfig
    have hlen := congrArg String.length htitle
    simp only [String.length_append] at hlen
    have hA : ("No Sentiment Data for " : String).length = 22 := rfl
    have hB : (" (" : String).length = 2 := rfl
    have hC : (")" : String).length = 1 := rfl
    have hD : (trendNoData.2.title).length = 17 := rfl
    rw [hA, hB, hC, hD] at hlen
    omega

/-- C9 witness: a one-row Dataset for platform X labeled Pre-COVID, queried
for (X, Post-COVID): zero rows match, both callbacks answer "no matching
rows", and the results differ from "no data". -/
theorem no_matching_rows_distinct_witness :
    update_radar_chart
        (Table.mk ["source", "Period"]
          [[("source", Cell.str "X"), ("Period", Cell.str "Pre-COVID")]])
        (some "X") (some "Post-COVID")
      = Except.ok ("Sentiment Distribution on " ++ "X" ++ " (" ++ "Post-COVID" ++ ")",
          ⟨[1], ["No Data"],
           "No Sentiment Data for " ++ "X" ++ " (" ++ "Post-COVID" ++ ")"⟩) ∧
    update_trend_chart
        (Table.mk ["source", "Period"]
          [[("source", Cell.str "X"), ("Period", Cell.str "Pre-COVID")]])
        (some "X") (some "Post-COVID")
      = Except.ok ("Sentiment Trend on " ++ "X" ++ " (" ++ "Post-COVID" ++ ")",
          ⟨[], "No Sentiment Data for " ++ "X" ++ " (" ++ "Post-COVID" ++ ")"⟩) ∧
    update_radar_chart
        (Table.mk ["source", "Period"]
          [[("source", Cell.str "X"), ("Period", Cell.str "Pre-COVID")]])
        (some "X") (some "Post-COVID") ≠ Except.ok radarNoData ∧
    update_trend_chart
        (Table.mk ["source", "Period"]
          [[("source", Cell.str "X"), ("Period", Cell.str "Pre-COVID")]])
        (some "X") (some "Post-COVID") ≠ Except.ok trendNoData :=
  no_matching_rows_distinct
    (Table.mk ["source", "Period"]
      [[("source", Cell.str "X"), ("Period", Cell.str "Pre-COVID")]])
    "X" "Post-COVID" (by decide) (by decide) (by decide) (by decide)

/-- C10: the two callbacks filter the Dataset by the very same predicate — the
radar slice and the trend slice are equal lists, and both coincide with the
spec's wording: the rows whose `source` equals the platform and whose `Period`
equals the selected period. -/
theorem callbacks_filter_identically (df : Table) (p per : String) :
    radarFiltered df p per = trendFiltered df p per ∧
    radarFiltered df p per = selectFilterSpec df p per ∧
    ∀ r : Row, r ∈ radarFiltered df p per ↔
      (r ∈ df.rows ∧ r.get "source" = some (Cell.str p) ∧
        r.get "Period" = some (Cell.str per)) :=
  ⟨radarFiltered_eq_trendFiltered df p per, radarFiltered_eq_spec df p per,
   fun _ => mem_radarFiltered⟩
